import Mathlib

/-!
Verification of the containerized-data-importer trust-and-cipher configuration
subsystem.  Pure Lean embeddings of:

* `pkg/util/lock.go` — `ResourceLocks`, a named mutual-exclusion registry.
  The Go struct guards a string set with a single mutex; each exported method
  holds the mutex for its whole body, so each method is one atomic step and is
  embedded as a pure function on the set state.
* `pkg/util/prometheus/prometheus.go` — `ProgressReader.updateProgress`.
  Go float64 arithmetic is modelled exactly over ℚ; the prometheus counter for
  the owner UID is threaded explicitly, and a possible metric-write error is a
  boolean parameter (on error the code logs and returns true without touching
  the counter).
* The apiserver auth/TLS watcher components, whose implementation files are not
  part of this source snapshot (only their tests are); those definitions are
  modelled from the specification and are marked as such in their doc comments.
-/

set_option maxRecDepth 4000

/-- State of `ResourceLocks` (pkg/util/lock.go): the set of resource IDs with
an ongoing operation.  The Go mutex serializes the methods; each method body is
embedded as one atomic function on this state. -/
structure ResourceLocks where
  locks : Finset String
deriving DecidableEq

/-- `NewResourceLocks` returns a registry with an empty set. -/
def NewResourceLocks : ResourceLocks := ⟨∅⟩

/-- `TryAcquire` (lock.go lines 24-33): if the resource is already in the set,
return false and leave the set unchanged; otherwise insert it and return true.
Returns the result together with the post state. -/
def ResourceLocks.TryAcquire (vl : ResourceLocks) (resource : String) :
    Bool × ResourceLocks :=
  if resource ∈ vl.locks then (false, vl)
  else (true, ⟨insert resource vl.locks⟩)

/-- `Release` (lock.go lines 36-40): delete the resource from the set,
unconditionally. -/
def ResourceLocks.Release (vl : ResourceLocks) (resource : String) :
    ResourceLocks :=
  ⟨vl.locks.erase resource⟩

/-- State of `ProgressReader` (pkg/util/prometheus/prometheus.go) relevant to
`updateProgress`: the embedded counting reader's `Current` and `Done`, the
`total` byte count, and the `final` flag. -/
structure ProgressReader where
  Current : Nat
  Done : Bool
  total : Nat
  final : Bool
deriving DecidableEq

/-- The `currentProgress` value computed inside `updateProgress` (prometheus.go
lines 63-67), with float64 arithmetic modelled exactly over ℚ: starts at 100.0
and is replaced by `Current/total*100` when not finished and `Current < total`. -/
def ProgressReader.currentProgressVal (r : ProgressReader) : ℚ :=
  if (!(r.final && r.Done)) && decide (r.Current < r.total) then
    (r.Current : ℚ) / (r.total : ℚ) * 100
  else 100

/-- `updateProgress` (prometheus.go lines 61-80).  `counter` is the owner's
prometheus counter value read via `Write`; `writeErr` is true when that read
fails (the code then returns true without updating).  When the computed
progress strictly exceeds the counter, the code calls `Add` with the
difference; the returned Bool is the loop-continuation flag. -/
def ProgressReader.updateProgress (r : ProgressReader) (writeErr : Bool)
    (counter : ℚ) : Bool × ℚ :=
  if 0 < r.total then
    if writeErr then (true, counter)
    else
      let cp := r.currentProgressVal
      (!(r.final && r.Done),
        if counter < cp then counter + (cp - counter) else counter)
  else (false, counter)

/-- Modelled from the spec: the immutable `AuthConfig` snapshot maintained by
the `AuthConfigWatcher` (the watcher implementation is not under src/, only its
tests).  CA bytes are kept as strings; `CertPool` is the pool of certificates
obtained by parsing both CA byte sets. -/
structure AuthConfig where
  ClientCABytes : String
  RequestheaderClientCABytes : String
  CertPool : List String
  UserHeaders : List String
  GroupHeaders : List String
  ExtraPrefixHeaders : List String
  AllowedCommonNames : List String
deriving DecidableEq

/-- Modelled from the spec: `ValidateName(name) -> bool` returns true if
`AllowedCommonNames` is empty, or if `name` is a member; false otherwise
(the implementation is not under src/). -/
def AuthConfig.ValidateName (ac : AuthConfig) (name : String) : Bool :=
  ac.AllowedCommonNames.isEmpty || ac.AllowedCommonNames.contains name

/-- Modelled from the spec: the authentication descriptor's fixed keys
(`client-ca-file`, `requestheader-client-ca-file`, `requestheader-allowed-names`,
`requestheader-username-headers`, `requestheader-group-headers`,
`requestheader-extra-headers-prefix`); absent fields are the empty string. -/
structure AuthDescriptor where
  clientCA : String
  requestheaderClientCA : String
  allowedNames : String
  userHeaderNames : String
  groupHeaderNames : String
  extraPrefixHeaderNames : String
deriving DecidableEq

/-- Strip leading and trailing spaces from a character list. -/
def trimChars (l : List Char) : List Char :=
  ((l.dropWhile fun c => c = ' ').reverse.dropWhile fun c => c = ' ').reverse

/-- Split a character list on commas (no comma yields one field). -/
def splitOnComma : List Char → List (List Char)
  | [] => [[]]
  | c :: rest =>
      let r := splitOnComma rest
      if c = ',' then [] :: r
      else
        match r with
        | [] => [[c]]
        | h :: t => (c :: h) :: t

/-- Parse one field of the pseudo-array: after trimming it must be surrounded
by double quotes; returns the unquoted contents, or `none` when malformed. -/
def parseQuoted (e : List Char) : Option (List Char) :=
  match trimChars e with
  | '"' :: rest =>
      match rest.reverse with
      | '"' :: midRev => some midRev.reverse
      | _ => none
  | _ => none

/-- Modelled from the spec: deserialize a list-valued descriptor field (a
bracketed, quoted, comma-separated string) into an ordered sequence of strings;
malformed entries are dropped, not fatal (the implementation is not under
src/). -/
def deserializeStringSlice (s : String) : List String :=
  match trimChars s.toList with
  | '[' :: rest =>
      match rest.reverse with
      | ']' :: midRev =>
          let mid := midRev.reverse
          if trimChars mid = [] then []
          else
            (splitOnComma mid).filterMap fun e =>
              (parseQuoted e).map fun l => String.mk l
      | _ => []
  | _ => []

/-- Modelled from the spec: one update step of the `AuthConfigWatcher` (the
implementation is not under src/).  `parseCA` parses one CA byte block into a
list of certificates; a parse failure for either block aborts the entire
update and the previous snapshot `old` is retained.  On success the new
snapshot is built wholesale from the descriptor. -/
def updateAuthConfig (parseCA : String → Option (List String))
    (old : AuthConfig) (d : AuthDescriptor) : AuthConfig :=
  match parseCA d.clientCA, parseCA d.requestheaderClientCA with
  | some p1, some p2 =>
      { ClientCABytes := d.clientCA
        RequestheaderClientCABytes := d.requestheaderClientCA
        CertPool := p1 ++ p2
        UserHeaders := deserializeStringSlice d.userHeaderNames
        GroupHeaders := deserializeStringSlice d.groupHeaderNames
        ExtraPrefixHeaders := deserializeStringSlice d.extraPrefixHeaderNames
        AllowedCommonNames := deserializeStringSlice d.allowedNames }
  | _, _ => old

/-- Go `crypto/tls` protocol version constant `VersionTLS10` (0x0301). -/
def VersionTLS10 : Nat := 769

/-- Go `crypto/tls` protocol version constant `VersionTLS12` (0x0303). -/
def VersionTLS12 : Nat := 771

/-- Go `crypto/tls` protocol version constant `VersionTLS13` (0x0304). -/
def VersionTLS13 : Nat := 772

/-- Modelled from the spec: the immutable `TLSPolicy` snapshot: minimum
negotiated protocol version and ordered permitted cipher-suite identifiers. -/
structure TLSPolicy where
  MinVersion : Nat
  CipherSuites : List Nat
deriving DecidableEq

/-- Modelled from the spec: the closed enumeration of named TLS profile types
of the static profile table (legacy, default, modern). -/
inductive TLSProfileType where
  | Old
  | Intermediate
  | Modern
deriving DecidableEq

/-- Modelled from the spec: a row of the static profile table: cipher names
and the profile's minimum TLS version. -/
structure TLSProfileDef where
  Ciphers : List String
  MinTLSVersion : Nat
deriving DecidableEq

/-- Cipher names of the modern profile (minimal list, TLS 1.3 suites). -/
def modernCiphers : List String :=
  ["TLS_AES_128_GCM_SHA256", "TLS_AES_256_GCM_SHA384",
   "TLS_CHACHA20_POLY1305_SHA256"]

/-- Cipher names of the intermediate (default) profile (moderate list). -/
def intermediateCiphers : List String :=
  modernCiphers ++
  ["ECDHE-ECDSA-AES128-GCM-SHA256", "ECDHE-RSA-AES128-GCM-SHA256",
   "ECDHE-ECDSA-AES256-GCM-SHA384", "ECDHE-RSA-AES256-GCM-SHA384",
   "ECDHE-ECDSA-CHACHA20-POLY1305", "ECDHE-RSA-CHACHA20-POLY1305"]

/-- Cipher names of the legacy ("Old") profile (broad list; the DHE names have
no wire identifier in the fixed mapping below and are skipped during
resolution). -/
def oldCiphers : List String :=
  intermediateCiphers ++
  ["DHE-RSA-AES128-GCM-SHA256", "DHE-RSA-AES256-GCM-SHA384",
   "ECDHE-ECDSA-AES128-SHA256", "ECDHE-RSA-AES128-SHA256",
   "ECDHE-ECDSA-AES128-SHA", "ECDHE-RSA-AES128-SHA",
   "ECDHE-ECDSA-AES256-SHA", "ECDHE-RSA-AES256-SHA",
   "AES128-GCM-SHA256", "AES256-GCM-SHA384",
   "AES128-SHA256", "AES128-SHA", "AES256-SHA"]

/-- Modelled from the spec: the static profile table (`TLSProfiles`), keyed by
profile type: legacy = oldest supported minimum version with a broad cipher
list, intermediate = mid-tier default, modern = newest minimum version with a
minimal list. -/
def TLSProfiles : TLSProfileType → TLSProfileDef
  | TLSProfileType.Old => ⟨oldCiphers, VersionTLS10⟩
  | TLSProfileType.Intermediate => ⟨intermediateCiphers, VersionTLS12⟩
  | TLSProfileType.Modern => ⟨modernCiphers, VersionTLS13⟩

/-- Modelled from the spec: the fixed cipher-name-to-wire-identifier table
(Go `crypto/tls` suite IDs). -/
def cipherSuiteTable : List (String × Nat) :=
  [("TLS_AES_128_GCM_SHA256", 4865),
   ("TLS_AES_256_GCM_SHA384", 4866),
   ("TLS_CHACHA20_POLY1305_SHA256", 4867),
   ("ECDHE-ECDSA-AES128-GCM-SHA256", 49195),
   ("ECDHE-RSA-AES128-GCM-SHA256", 49199),
   ("ECDHE-ECDSA-AES256-GCM-SHA384", 49196),
   ("ECDHE-RSA-AES256-GCM-SHA384", 49200),
   ("ECDHE-ECDSA-CHACHA20-POLY1305", 52393),
   ("ECDHE-RSA-CHACHA20-POLY1305", 52392),
   ("ECDHE-ECDSA-AES128-SHA256", 49187),
   ("ECDHE-RSA-AES128-SHA256", 49191),
   ("ECDHE-ECDSA-AES128-SHA", 49161),
   ("ECDHE-RSA-AES128-SHA", 49171),
   ("ECDHE-ECDSA-AES256-SHA", 49162),
   ("ECDHE-RSA-AES256-SHA", 49172),
   ("AES128-GCM-SHA256", 156),
   ("AES256-GCM-SHA384", 157),
   ("AES128-SHA256", 60),
   ("AES128-SHA", 47),
   ("AES256-SHA", 53)]

/-- Modelled from the spec: `CipherSuitesIDs` maps each cipher name to its
wire identifier via the fixed table, skipping unknown names rather than
failing the whole resolution. -/
def CipherSuitesIDs (names : List String) : List Nat :=
  names.filterMap fun n =>
    (cipherSuiteTable.find? fun p => p.1 == n).map Prod.snd

/-- Modelled from the spec: the TLS-profile selector resource's specification:
either a named profile type, a custom profile carrying an explicit minimum
version and cipher-name list, or an unrecognized profile name. -/
inductive TLSSecurityProfile where
  | named (t : TLSProfileType)
  | custom (minVersion : Nat) (cipherNames : List String)
  | unrecognized (name : String)
deriving DecidableEq

/-- Modelled from the spec: `GetCdiTLSConfig` resolution over the current
watcher state (the `TLSProfileWatcher` implementation is not under src/).
`none` is the state in which no profile is set or the selector resource was
removed; it and an unrecognized profile name resolve to the intermediate
(default) profile; named profiles resolve via the static table; the custom
profile uses its explicit fields. -/
def GetCdiTLSConfig : Option TLSSecurityProfile → TLSPolicy
  | none =>
      ⟨(TLSProfiles TLSProfileType.Intermediate).MinTLSVersion,
       CipherSuitesIDs (TLSProfiles TLSProfileType.Intermediate).Ciphers⟩
  | some (TLSSecurityProfile.named t) =>
      ⟨(TLSProfiles t).MinTLSVersion, CipherSuitesIDs (TLSProfiles t).Ciphers⟩
  | some (TLSSecurityProfile.custom v cs) => ⟨v, CipherSuitesIDs cs⟩
  | some (TLSSecurityProfile.unrecognized _) =>
      ⟨(TLSProfiles TLSProfileType.Intermediate).MinTLSVersion,
       CipherSuitesIDs (TLSProfiles TLSProfileType.Intermediate).Ciphers⟩

/-- Go `crypto/tls` `ClientAuthType` values used by the assembler. -/
inductive ClientAuthType where
  | NoClientCert
  | RequestClientCert
  | RequireAnyClientCert
  | VerifyClientCertIfGiven
  | RequireAndVerifyClientCert
deriving DecidableEq

/-- Modelled from the spec: the per-connection TLS server configuration
assembled for one handshake.  The serving certificate is an opaque value. -/
structure TLSServerConfig where
  ClientCAs : List String
  MinVersion : Nat
  CipherSuites : List Nat
  Certificate : Nat
  ClientAuth : ClientAuthType
deriving DecidableEq

/-- Modelled from the spec: the `TLSConfigAssembler` (`getTLSConfig`, not under
src/), invoked once per inbound handshake.  `fetchedCert` is the result of
fetching the current certificate from the `CertificateSource` (`none` on fetch
failure).  On failure no configuration is returned (fail closed); on success
the configuration combines the client-CA pool from the `AuthConfig` snapshot,
minimum version and cipher suites from the `TLSPolicy` snapshot, the fetched
certificate, and mutual client authentication. -/
def getTLSConfig (ac : AuthConfig) (policy : TLSPolicy)
    (fetchedCert : Option Nat) : Option TLSServerConfig :=
  match fetchedCert with
  | none => none
  | some c =>
      some
        { ClientCAs := ac.CertPool
          MinVersion := policy.MinVersion
          CipherSuites := policy.CipherSuites
          Certificate := c
          ClientAuth := ClientAuthType.RequireAndVerifyClientCert }

/-- Modelled from the spec: operations on the watcher's single shared
reference cell: `publish` atomically replaces the whole `AuthConfig` snapshot
(a single indivisible reference replacement), `read` is one `GetAuthConfig()`
call. -/
inductive WatcherOp where
  | publish (c : AuthConfig)
  | read
deriving DecidableEq

/-- Modelled from the spec: run a sequence of publish/read operations against
the watcher's reference cell, returning the final cell contents and the list
of snapshots observed by the reads, in order.  Each read returns the entire
current cell contents in one step. -/
def runWatcherTrace (cell : AuthConfig) :
    List WatcherOp → AuthConfig × List AuthConfig
  | [] => (cell, [])
  | WatcherOp.publish c :: rest => runWatcherTrace c rest
  | WatcherOp.read :: rest =>
      let r := runWatcherTrace cell rest
      (r.1, cell :: r.2)

/-- Claim C1: for every `AuthConfig` snapshot and every name, `ValidateName`
returns true if `AllowedCommonNames` is empty, and otherwise returns true iff
the name is a member.  The embedding is a pure function of the snapshot, so
the call has no side effect on the snapshot by construction. -/
theorem validateName_spec (ac : AuthConfig) (name : String) :
    ac.ValidateName name = true ↔
      ac.AllowedCommonNames = [] ∨ name ∈ ac.AllowedCommonNames := by
  simp [AuthConfig.ValidateName]

/-- Claim C2 (counterexample): the claim quantifies over every registry state,
but in a state where the key is already held, two immediately successive
`TryAcquire(k)` calls both return false — not exactly one true. -/
theorem tryAcquire_twice_both_false :
    ((ResourceLocks.mk {"vol1"}).TryAcquire "vol1").1 = false ∧
    (((ResourceLocks.mk {"vol1"}).TryAcquire "vol1").2.TryAcquire "vol1").1 =
      false := by
  decide

/-- Claim C2 (amended): for every key `k` and registry state, `TryAcquire(k)`
returns true exactly when `k` is absent and always leaves `k` in the set; the
second of two immediately successive `TryAcquire(k)` calls always returns
false (so exactly one returns true iff `k` was initially absent, and neither
when `k` was already held); `Release(k)` removes `k` (idempotent when absent,
since erasing an absent element is the identity) and a subsequent
`TryAcquire(k)` returns true. -/
theorem tryAcquire_release_spec (vl : ResourceLocks) (k : String) :
    (vl.TryAcquire k).1 = !(decide (k ∈ vl.locks)) ∧
    (vl.TryAcquire k).2.locks = insert k vl.locks ∧
    ((vl.TryAcquire k).2.TryAcquire k).1 = false ∧
    (vl.Release k).locks = vl.locks.erase k ∧
    ((vl.Release k).TryAcquire k).1 = true := by
  refine ⟨?_, ?_, ?_, rfl, ?_⟩
  · by_cases h : k ∈ vl.locks <;> simp [ResourceLocks.TryAcquire, h]
  · by_cases h : k ∈ vl.locks <;>
      simp [ResourceLocks.TryAcquire, h, Finset.insert_eq_self.mpr]
  · by_cases h : k ∈ vl.locks <;>
      simp [ResourceLocks.TryAcquire, h, Finset.mem_insert_self]
  · simp [ResourceLocks.Release, ResourceLocks.TryAcquire,
      Finset.not_mem_erase]

/-- Claim C9: `Release` performs no ownership check — for every key and every
registry state it removes the key from the set unconditionally (there is no
caller identity anywhere in the state), so after any `Release(k)` a subsequent
`TryAcquire(k)` returns true. -/
theorem release_no_ownership_check (vl : ResourceLocks) (k : String) :
    (vl.Release k).locks = vl.locks.erase k ∧
    ((vl.Release k).TryAcquire k).1 = true := by
  refine ⟨rfl, ?_⟩
  simp [ResourceLocks.Release, ResourceLocks.TryAcquire, Finset.not_mem_erase]

/-- Claim C3: whenever no profile is set, the selector resource is removed
(both are the `none` watcher state), or the named profile is unrecognized,
`GetCdiTLSConfig` resolves to the fixed intermediate default profile: its
cipher-suite list is the intermediate profile's resolved list (never empty)
and its minimum version is the intermediate profile's minimum version (never
unset, i.e. nonzero). -/
theorem getCdiTLSConfig_default_intermediate (s : Option TLSSecurityProfile)
    (h : s = none ∨ ∃ n, s = some (TLSSecurityProfile.unrecognized n)) :
    GetCdiTLSConfig s =
      GetCdiTLSConfig
        (some (TLSSecurityProfile.named TLSProfileType.Intermediate)) ∧
    (GetCdiTLSConfig s).CipherSuites =
      CipherSuitesIDs (TLSProfiles TLSProfileType.Intermediate).Ciphers ∧
    (GetCdiTLSConfig s).CipherSuites ≠ [] ∧
    (GetCdiTLSConfig s).MinVersion =
      (TLSProfiles TLSProfileType.Intermediate).MinTLSVersion ∧
    (GetCdiTLSConfig s).MinVersion ≠ 0 := by
  have hcs :
      CipherSuitesIDs (TLSProfiles TLSProfileType.Intermediate).Ciphers ≠
        [] := by decide
  have hmv : (TLSProfiles TLSProfileType.Intermediate).MinTLSVersion ≠ 0 := by
    decide
  rcases h with rfl | ⟨n, rfl⟩ <;> exact ⟨rfl, rfl, hcs, rfl, hmv⟩

/-- Witness for claim C3 at the concrete state with no profile set. -/
theorem getCdiTLSConfig_default_intermediate_witness :
    ((none : Option TLSSecurityProfile) = none ∨
      ∃ n, (none : Option TLSSecurityProfile) =
        some (TLSSecurityProfile.unrecognized n)) ∧
    ((GetCdiTLSConfig none).CipherSuites ≠ [] ∧
      (GetCdiTLSConfig none).MinVersion =
        (TLSProfiles TLSProfileType.Intermediate).MinTLSVersion) :=
  ⟨Or.inl rfl,
   (getCdiTLSConfig_default_intermediate none (Or.inl rfl)).2.2.1,
   (getCdiTLSConfig_default_intermediate none (Or.inl rfl)).2.2.2.1⟩

/-- Claim C4: setting the profile type to "Old" makes `GetCdiTLSConfig`
return the oldest supported minimum version (TLS 1.0) and the "Old" profile
table's resolved cipher list; clearing the profile rolls both back to the
intermediate defaults (TLS 1.2 and the intermediate cipher list). -/
theorem tls_profile_old_then_clear :
    (GetCdiTLSConfig
        (some (TLSSecurityProfile.named TLSProfileType.Old))).MinVersion =
      VersionTLS10 ∧
    (GetCdiTLSConfig
        (some (TLSSecurityProfile.named TLSProfileType.Old))).CipherSuites =
      CipherSuitesIDs (TLSProfiles TLSProfileType.Old).Ciphers ∧
    (GetCdiTLSConfig none).MinVersion = VersionTLS12 ∧
    (GetCdiTLSConfig none).CipherSuites =
      CipherSuitesIDs (TLSProfiles TLSProfileType.Intermediate).Ciphers :=
  ⟨rfl, rfl, rfl, rfl⟩

/-- Claim C5: for every parse function, previous snapshot and descriptor, if
parsing either CA byte block fails, the entire update is aborted and the
watcher's snapshot is the previous one, unchanged in every field; the update
function is total, so the failure is never fatal to the watcher. -/
theorem updateAuthConfig_parse_failure
    (parseCA : String → Option (List String)) (old : AuthConfig)
    (d : AuthDescriptor)
    (h : parseCA d.clientCA = none ∨ parseCA d.requestheaderClientCA = none) :
    updateAuthConfig parseCA old d = old := by
  rcases h1 : parseCA d.clientCA with _ | p1
  · simp [updateAuthConfig, h1]
  · rcases h2 : parseCA d.requestheaderClientCA with _ | p2
    · simp [updateAuthConfig, h1, h2]
    · rcases h with h | h
      · rw [h1] at h; cases h
      · rw [h2] at h; cases h

/-- Sample previous snapshot for the claim C5 witness. -/
def previousSnapshot : AuthConfig :=
  { ClientCABytes := "old-ca"
    RequestheaderClientCABytes := "old-rh-ca"
    CertPool := ["old-cert"]
    UserHeaders := ["X-Remote-User"]
    GroupHeaders := ["X-Remote-Group"]
    ExtraPrefixHeaders := ["X-Remote-Extra-"]
    AllowedCommonNames := ["front-proxy-client"] }

/-- Sample incoming descriptor for the claim C5 witness. -/
def badDescriptor : AuthDescriptor :=
  { clientCA := "not-a-pem"
    requestheaderClientCA := "also-not-a-pem"
    allowedNames := "[\"front-proxy-client\"]"
    userHeaderNames := "[\"X-Remote-User\"]"
    groupHeaderNames := "[\"X-Remote-Group\"]"
    extraPrefixHeaderNames := "[\"X-Remote-Extra-\"]" }

/-- Witness for claim C5: a parse function that rejects every block leaves the
previous snapshot in effect. -/
theorem updateAuthConfig_parse_failure_witness :
    ((fun _ : String => (none : Option (List String)))
        badDescriptor.clientCA = none ∨
      (fun _ : String => (none : Option (List String)))
        badDescriptor.requestheaderClientCA = none) ∧
    updateAuthConfig (fun _ => none) previousSnapshot badDescriptor =
      previousSnapshot :=
  ⟨Or.inl rfl,
   updateAuthConfig_parse_failure (fun _ => none) previousSnapshot
     badDescriptor (Or.inl rfl)⟩

/-- Claim C6: for every handshake in which the certificate fetch succeeds, the
assembled TLS configuration has client-CA pool equal to the current
`AuthConfig.CertPool`, minimum version and cipher suites equal to the current
`TLSPolicy`, the certificate returned by the `CertificateSource`, and mutual
client authentication (require and verify). -/
theorem getTLSConfig_success_fields (ac : AuthConfig) (policy : TLSPolicy)
    (c : Nat) :
    ∃ cfg, getTLSConfig ac policy (some c) = some cfg ∧
      cfg.ClientCAs = ac.CertPool ∧
      cfg.MinVersion = policy.MinVersion ∧
      cfg.CipherSuites = policy.CipherSuites ∧
      cfg.Certificate = c ∧
      cfg.ClientAuth = ClientAuthType.RequireAndVerifyClientCert :=
  ⟨_, rfl, rfl, rfl, rfl, rfl, rfl⟩

/-- Claim C7: for every handshake in which the certificate fetch fails, the
assembler returns no TLS configuration (fail closed; the connection is
refused).  The assembler is a total function per connection, so the failure
cannot crash the serving process in this model. -/
theorem getTLSConfig_fetch_failure (ac : AuthConfig) (policy : TLSPolicy) :
    getTLSConfig ac policy none = none := rfl

/-- A trace consisting only of reads leaves the cell unchanged and every read
observes exactly the cell contents. -/
theorem runWatcherTrace_reads (c : AuthConfig) (ops : List WatcherOp)
    (h : ∀ op ∈ ops, op = WatcherOp.read) :
    runWatcherTrace c ops = (c, List.replicate ops.length c) := by
  induction ops with
  | nil => rfl
  | cons op rest ih =>
      have hop := h op (List.mem_cons_self op rest)
      subst hop
      have hrest := ih fun o ho => h o (List.mem_cons_of_mem _ ho)
      simp [runWatcherTrace, hrest, List.replicate]

/-- Claim C8: for every valid descriptor update (a single atomic publication
of the complete new snapshot) interleaved with any number of concurrent
`GetAuthConfig()` reads, every read observes either the complete old snapshot
or the complete new snapshot — never a value mixing fields of the two.
Publication is a single indivisible replacement of the watcher's reference
cell, as the one `publish` step of the trace. -/
theorem getAuthConfig_no_torn_read (old new : AuthConfig)
    (pre post : List WatcherOp)
    (hpre : ∀ op ∈ pre, op = WatcherOp.read)
    (hpost : ∀ op ∈ post, op = WatcherOp.read) :
    ∀ obs ∈ (runWatcherTrace old (pre ++ WatcherOp.publish new :: post)).2,
      obs = old ∨ obs = new := by
  induction pre with
  | nil =>
      intro obs hobs
      rw [List.nil_append] at hobs
      have hpub :
          runWatcherTrace old (WatcherOp.publish new :: post) =
            runWatcherTrace new post := rfl
      rw [hpub, runWatcherTrace_reads new post hpost] at hobs
      exact Or.inr (List.eq_of_mem_replicate hobs)
  | cons op rest ih =>
      have hop := hpre op (List.mem_cons_self op rest)
      subst hop
      intro obs hobs
      have hrest : ∀ o ∈ rest, o = WatcherOp.read := fun o ho =>
        hpre o (List.mem_cons_of_mem _ ho)
      rw [List.cons_append] at hobs
      simp only [runWatcherTrace, List.mem_cons] at hobs
      rcases hobs with h | h
      · exact Or.inl h
      · exact ih hrest obs h

/-- Old snapshot used by the claim C8 witness. -/
def oldSnapshot : AuthConfig :=
  { ClientCABytes := "ca-one"
    RequestheaderClientCABytes := "rh-ca-one"
    CertPool := ["cert-one"]
    UserHeaders := ["X-Remote-User"]
    GroupHeaders := ["X-Remote-Group"]
    ExtraPrefixHeaders := ["X-Remote-Extra-"]
    AllowedCommonNames := [] }

/-- New snapshot used by the claim C8 witness. -/
def newSnapshot : AuthConfig :=
  { ClientCABytes := "ca-two"
    RequestheaderClientCABytes := "rh-ca-two"
    CertPool := ["cert-two"]
    UserHeaders := ["X-Remote-User"]
    GroupHeaders := ["X-Remote-Group"]
    ExtraPrefixHeaders := ["X-Remote-Extra-"]
    AllowedCommonNames := ["front-proxy-client"] }

/-- Witness for claim C8: one read before and one read after the publication
each observe a complete snapshot. -/
theorem getAuthConfig_no_torn_read_witness :
    (∀ op ∈ [WatcherOp.read], op = WatcherOp.read) ∧
    (∀ obs ∈
        (runWatcherTrace oldSnapshot
          ([WatcherOp.read] ++
            WatcherOp.publish newSnapshot :: [WatcherOp.read])).2,
      obs = oldSnapshot ∨ obs = newSnapshot) :=
  ⟨fun _ ho => by simpa using ho,
   getAuthConfig_no_torn_read oldSnapshot newSnapshot [WatcherOp.read]
     [WatcherOp.read] (fun _ ho => by simpa using ho)
     (fun _ ho => by simpa using ho)⟩

/-- Claim C10: for every `ProgressReader` with positive total, every metric
read outcome and every current counter value: the computed progress value is
at most 100; the call adds to the counter exactly when the metric read
succeeded and the computed value strictly exceeds the counter (raising it to
the computed value) and leaves it unchanged otherwise; hence the published
counter is non-decreasing across calls and never exceeds 100 once it is at
most 100. -/
theorem updateProgress_monotone_bounded (r : ProgressReader) (writeErr : Bool)
    (counter : ℚ) (htot : 0 < r.total) :
    r.currentProgressVal ≤ 100 ∧
    (r.updateProgress writeErr counter).2 =
      (if writeErr = false ∧ counter < r.currentProgressVal then
        r.currentProgressVal
      else counter) ∧
    counter ≤ (r.updateProgress writeErr counter).2 ∧
    (counter ≤ 100 → (r.updateProgress writeErr counter).2 ≤ 100) := by
  have hcp : r.currentProgressVal ≤ 100 := by
    unfold ProgressReader.currentProgressVal
    split
    · rename_i h
      rw [Bool.and_eq_true, decide_eq_true_eq] at h
      have htpos : (0 : ℚ) < (r.total : ℚ) := by exact_mod_cast htot
      have h1 : (r.Current : ℚ) / (r.total : ℚ) ≤ 1 := by
        rw [div_le_one htpos]
        exact_mod_cast h.2.le
      calc (r.Current : ℚ) / (r.total : ℚ) * 100 ≤ 1 * 100 :=
            mul_le_mul_of_nonneg_right h1 (by norm_num)
        _ = 100 := by norm_num
    · exact le_refl 100
  have heq : (r.updateProgress writeErr counter).2 =
      (if writeErr = false ∧ counter < r.currentProgressVal then
        r.currentProgressVal
      else counter) := by
    unfold ProgressReader.updateProgress
    rw [if_pos htot]
    cases writeErr with
    | true => simp
    | false =>
        by_cases hc : counter < r.currentProgressVal <;> simp [hc]
  refine ⟨hcp, heq, ?_, ?_⟩
  · rw [heq]
    split
    · rename_i h
      exact h.2.le
    · exact le_refl counter
  · intro h100
    rw [heq]
    split
    · exact hcp
    · exact h100

/-- Witness for claim C10 at a concrete reader (50 of 200 bytes read), a
successful metric read and counter value 0. -/
theorem updateProgress_monotone_bounded_witness :
    0 < (ProgressReader.mk 50 false 200 true).total ∧
    ((ProgressReader.mk 50 false 200 true).currentProgressVal ≤ 100 ∧
      ((ProgressReader.mk 50 false 200 true).updateProgress false 0).2 =
        (if false = false ∧ (0 : ℚ) <
            (ProgressReader.mk 50 false 200 true).currentProgressVal then
          (ProgressReader.mk 50 false 200 true).currentProgressVal
        else 0) ∧
      (0 : ℚ) ≤ ((ProgressReader.mk 50 false 200 true).updateProgress
        false 0).2 ∧
      ((0 : ℚ) ≤ 100 →
        ((ProgressReader.mk 50 false 200 true).updateProgress false 0).2 ≤
          100)) :=
  ⟨by decide,
   updateProgress_monotone_bounded (ProgressReader.mk 50 false 200 true)
     false 0 (by decide)⟩
